import Mathlib

/-!
Shallow embedding of the persistent Windows command-session manager from
`computer_use_demo/tools/windows.py` (`_WindowsSession` and `WindowsTool`),
together with proofs of the specified properties.

The session owns one spawned shell process.  `run` writes a framed command
line to the process stdin and polls the accumulated stdout buffer until a
sentinel token appears or a timeout elapses.  Real time and the asyncio
event loop are abstracted into a `RunEnv` value describing what the
environment delivers during one `run` call: either the bytes appended to
the stdout buffer up to the first poll tick at which the sentinel occurs
in the buffer (`stdoutDelta = some d`), or the information that the
timeout elapsed before any such tick (`stdoutDelta = none`), plus the
bytes appended to the stderr buffer by that same decisive tick.
-/

/-- One spawned shell process, as the session observes it: the reaped exit
code (`returncode`, `none` while the process is alive) and the growable
stdout/stderr accumulator buffers of its piped streams
(`_process.stdout._buffer` / `_process.stderr._buffer`). -/
structure Proc where
  returncode : Option Int
  stdoutBuf : String
  stderrBuf : String
deriving Repr, DecidableEq

/-- A freshly spawned process: alive, with empty stream buffers.  This is
what `asyncio.create_subprocess_exec` hands back in `start`. -/
def freshProc : Proc := { returncode := none, stdoutBuf := "", stderrBuf := "" }

/-- `_WindowsSession` state: the `_started` and `_timed_out` flags and the
`_process` attribute (`none` before `start` has ever run). -/
structure Session where
  started : Bool
  timedOut : Bool
  process : Option Proc
deriving Repr, DecidableEq

/-- `_WindowsSession.__init__`: `_started = False`, `_timed_out = False`,
no `_process` attribute yet. -/
def Session.init : Session := { started := false, timedOut := false, process := none }

/-- The sentinel token `_WindowsSession._sentinel`. -/
def SENTINEL : String := "<<exit>>"

/-- The message of the `ToolError` raised on timeout; `_timeout` is the
float `120.0`, which Python renders as `120.0` in the f-string. -/
def TIMEOUT_MSG : String :=
  "timed out: cmd has not returned in 120.0 seconds and must be restarted"

/-- Modelled from the spec: the `CommandResult` / `ToolResult` container
(defined in `tools/base.py`, which is not part of the analysed sources):
`{stdout: text, stderr: text, systemNote: optional text}`, where every
field is optional and defaults to absent.  `CLIResult` is the same shape
with `output`/`error` set and `system` absent. -/
structure ToolResult where
  output : Option String := none
  error : Option String := none
  system : Option String := none
deriving Repr, DecidableEq

/-- Outcome of `_WindowsSession.stop()`: a raised `ToolError`, a plain
return without signalling anything, or a non-blocking `terminate()` signal
sent to the process (never awaited). -/
inductive StopResult where
  | raised (msg : String)
  | noop
  | terminated
deriving Repr, DecidableEq

/-- `_WindowsSession.start()`: no-op if `_started`; otherwise spawn the
shell process with piped streams and set `_started = True`.  The returned
Bool records whether a process was spawned by this call. -/
def Session.start (s : Session) : Session × Bool :=
  if s.started then (s, false)
  else ({ s with started := true, process := some freshProc }, true)

/-- `_WindowsSession.stop()`: raise if never started; return without
signalling if the process has already exited (`returncode` non-null);
otherwise send `terminate()` and return without waiting. -/
def Session.stop (s : Session) : StopResult :=
  if s.started = false then .raised "Session has not started."
  else
    match s.process with
    | none => .raised "session has no process"  -- unreachable: started sessions have a process
    | some p => if p.returncode.isSome then .noop else .terminated

/-- What the environment delivers during one `run` call (the process's
behaviour and the passage of time, which the embedding does not model
internally).  `stdoutDelta = some d`: before the timeout there is a poll
tick at which the sentinel occurs in the stdout buffer, and `d` is the
byte string appended to the buffer by the first such tick.
`stdoutDelta = none`: the timeout elapses with no such tick.
`stderrDelta` is what has been appended to the stderr buffer by the
decisive tick. -/
structure RunEnv where
  stdoutDelta : Option String
  stderrDelta : String
deriving Repr, DecidableEq

/-- First index of `haystack` at which `pat` occurs as a contiguous
sublist, if any: Python `haystack.index(pat)` / `pat in haystack`. -/
def firstOccur (pat : List Char) : List Char → Option Nat
  | [] => if pat.isEmpty then some 0 else none
  | c :: rest =>
    if pat.isPrefixOf (c :: rest) then some 0
    else (firstOccur pat rest).map (· + 1)

/-- Python `output[: output.index(pat)]`: truncate at the first occurrence
of `pat`.  (If `pat` does not occur the whole string is kept; `run` only
reaches this in states the polling loop cannot produce.) -/
def truncBeforeFirst (pat : List Char) (s : String) : String :=
  ⟨s.data.take ((firstOccur pat s.data).getD s.data.length)⟩

/-- Python `s.endswith("\n")`. -/
def endsWithNewline (s : String) : Bool := s.data.getLast? == some '\n'

/-- Python `s[:-1] if s.endswith("\n") else s`: strip exactly one trailing
newline if present. -/
def stripTrailingNewline (s : String) : String :=
  if endsWithNewline s then ⟨s.data.dropLast⟩ else s

instance {α β : Type} [DecidableEq α] [DecidableEq β] : DecidableEq (Except α β) := fun a b =>
  match a, b with
  | .error x, .error y =>
    if h : x = y then .isTrue (by simp [h]) else .isFalse (by simp [h])
  | .error _, .ok _ => .isFalse (by simp)
  | .ok _, .error _ => .isFalse (by simp)
  | .ok x, .ok y =>
    if h : x = y then .isTrue (by simp [h]) else .isFalse (by simp [h])

/-- Everything one `run` call does: the outcome (`Except.error msg` models
a raised `ToolError msg`, `Except.ok r` a returned result), the session
state afterwards, and the list of writes made to the process stdin. -/
structure RunStep where
  outcome : Except String ToolResult
  post : Session
  stdinWrites : List String
deriving Repr, DecidableEq

/-- `_WindowsSession.run(command)`.  Guard order as in the source: not
started → raise; `returncode` non-null → return the restart-note result;
`_timed_out` → raise; otherwise write the framed command and poll.  On the
sentinel tick: truncate the accumulated stdout at the sentinel, strip one
trailing newline from stdout and stderr, clear both accumulators, return a
`CLIResult`.  On timeout: set `_timed_out` and raise. -/
def Session.run (s : Session) (command : String) (env : RunEnv) : RunStep :=
  if s.started = false then
    { outcome := .error "Session has not started.", post := s, stdinWrites := [] }
  else
    match s.process with
    | none =>  -- unreachable: started sessions have a process
      { outcome := .error "session has no process", post := s, stdinWrites := [] }
    | some p =>
      match p.returncode with
      | some rc =>
        { outcome := .ok { system := some "tool must be restarted",
                           error := some ("cmd has exited with returncode " ++ toString rc) },
          post := s, stdinWrites := [] }
      | none =>
        if s.timedOut then
          { outcome := .error TIMEOUT_MSG, post := s, stdinWrites := [] }
        else
          let fullCommand := command ++ " & echo " ++ SENTINEL ++ "\n"
          match env.stdoutDelta with
          | none =>
            { outcome := .error TIMEOUT_MSG,
              post := { s with timedOut := true }, stdinWrites := [fullCommand] }
          | some d =>
            let out := stripTrailingNewline (truncBeforeFirst SENTINEL.data (p.stdoutBuf ++ d))
            let err := stripTrailingNewline (p.stderrBuf ++ env.stderrDelta)
            { outcome := .ok { output := some out, error := some err },
              post := { s with process := some { p with stdoutBuf := "", stderrBuf := "" } },
              stdinWrites := [fullCommand] }

/-- `WindowsTool` facade state: the lazily created session, if any. -/
structure Tool where
  session : Option Session
deriving Repr, DecidableEq

/-- `WindowsTool.__init__`: no session yet. -/
def Tool.init : Tool := { session := none }

/-- Everything one `WindowsTool.__call__` does: outcome, facade state
afterwards, stdin writes performed, number of processes spawned, and
whether a `terminate()` signal was sent to an old process. -/
structure CallStep where
  outcome : Except String ToolResult
  post : Tool
  stdinWrites : List String
  spawnCount : Nat
  terminateSignal : Bool
deriving Repr, DecidableEq

/-- `WindowsTool.__call__(command, restart)`.  Guard order as in the
source: no restart and no command → raise; restart → stop the existing
session if any (a raised `ToolError` from `stop` propagates), replace it
with a fresh started session, return the restart note; otherwise lazily
create and start a session if none exists and delegate to `run`. -/
def Tool.call (t : Tool) (command : Option String) (restart : Bool) (env : RunEnv) : CallStep :=
  if restart = false ∧ command = none then
    { outcome := .error "no command provided.", post := t,
      stdinWrites := [], spawnCount := 0, terminateSignal := false }
  else if restart then
    match t.session with
    | some s0 =>
      match s0.stop with
      | .raised msg =>
        { outcome := .error msg, post := t,
          stdinWrites := [], spawnCount := 0, terminateSignal := false }
      | .noop =>
        { outcome := .ok { system := some "tool has been restarted." },
          post := { session := some (Session.init.start).1 },
          stdinWrites := [], spawnCount := 1, terminateSignal := false }
      | .terminated =>
        { outcome := .ok { system := some "tool has been restarted." },
          post := { session := some (Session.init.start).1 },
          stdinWrites := [], spawnCount := 1, terminateSignal := true }
    | none =>
      { outcome := .ok { system := some "tool has been restarted." },
        post := { session := some (Session.init.start).1 },
        stdinWrites := [], spawnCount := 1, terminateSignal := false }
  else
    match command with
    | some c =>
      match t.session with
      | some s0 =>
        let st := s0.run c env
        { outcome := st.outcome, post := { session := some st.post },
          stdinWrites := st.stdinWrites, spawnCount := 0, terminateSignal := false }
      | none =>
        let st := (Session.init.start).1.run c env
        { outcome := st.outcome, post := { session := some st.post },
          stdinWrites := st.stdinWrites, spawnCount := 1, terminateSignal := false }
    | none =>  -- unreachable: the first guard already handled this case
      { outcome := .error "no command provided.", post := t,
        stdinWrites := [], spawnCount := 0, terminateSignal := false }

/-- A live process: no exit code yet, empty buffers. -/
def pLive : Proc := { returncode := none, stdoutBuf := "", stderrBuf := "" }

/-- A started session around a live process. -/
def sLive : Session := { started := true, timedOut := false, process := some pLive }

/-- A started session whose process has exited with returncode 1 (as in the
repository's own test, which sets `_process.returncode = 1`). -/
def sExited : Session :=
  { started := true, timedOut := false,
    process := some { returncode := some 1, stdoutBuf := "", stderrBuf := "" } }

/-- A timed-out session whose process has since exited. -/
def sExitedTimedOut : Session :=
  { started := true, timedOut := true,
    process := some { returncode := some 1, stdoutBuf := "", stderrBuf := "" } }

/-- An environment in which the timeout elapses before the sentinel appears. -/
def envTimeout : RunEnv := { stdoutDelta := none, stderrDelta := "" }

theorem empty_append_str (s : String) : "" ++ s = s := by
  cases s
  rfl

/-- C1: on a started, non-exited, non-timed-out session, when the sentinel
appears in the stdout accumulator before the timeout, `run c` writes exactly
the framed line `c ++ " & echo <<exit>>\n"` to the process stdin and returns a
result whose stdout equals the accumulated stdout truncated at the first
occurrence of the sentinel token, with exactly one trailing newline stripped
if present. -/
theorem run_frames_command_and_truncates_at_sentinel
    (s : Session) (p : Proc) (c d : String) (env : RunEnv) (i : Nat)
    (hs : s.started = true) (hp : s.process = some p) (hrc : p.returncode = none)
    (ht : s.timedOut = false) (hd : env.stdoutDelta = some d)
    (hi : firstOccur SENTINEL.data (p.stdoutBuf ++ d).data = some i) :
    (s.run c env).stdinWrites = [c ++ " & echo " ++ SENTINEL ++ "\n"] ∧
    (s.run c env).outcome =
      .ok { output := some (stripTrailingNewline ⟨(p.stdoutBuf ++ d).data.take i⟩),
            error := some (stripTrailingNewline (p.stderrBuf ++ env.stderrDelta)) } := by
  have hi2 : firstOccur SENTINEL.data (p.stdoutBuf.data ++ d.data) = some i := by
    simpa using hi
  constructor <;> simp [Session.run, hs, hp, hrc, ht, hd, truncBeforeFirst, hi2]

theorem run_frames_command_and_truncates_at_sentinel_witness :
    (firstOccur SENTINEL.data (pLive.stdoutBuf ++ "hello\n<<exit>>\n").data = some 6) ∧
    ((sLive.run "dir" { stdoutDelta := some "hello\n<<exit>>\n", stderrDelta := "" }).stdinWrites
        = ["dir" ++ " & echo " ++ SENTINEL ++ "\n"] ∧
     (sLive.run "dir" { stdoutDelta := some "hello\n<<exit>>\n", stderrDelta := "" }).outcome
        = .ok { output := some (stripTrailingNewline ⟨(pLive.stdoutBuf ++ "hello\n<<exit>>\n").data.take 6⟩),
                error := some (stripTrailingNewline (pLive.stderrBuf ++ "")) }) :=
  ⟨by decide,
   run_frames_command_and_truncates_at_sentinel sLive pLive "dir" "hello\n<<exit>>\n"
     { stdoutDelta := some "hello\n<<exit>>\n", stderrDelta := "" } 6
     rfl rfl rfl rfl rfl (by decide)⟩

/-- C2: when the timeout elapses without the sentinel appearing, `run` raises
the timeout error and the session transitions permanently to the timed-out
state: every subsequent `run` on a started, timed-out session whose process
has not exited also raises the timeout error and leaves the session
unchanged, so no `run` ever succeeds again on that instance. -/
theorem run_timeout_terminal
    (s : Session) (p : Proc) (c : String) (env : RunEnv)
    (hs : s.started = true) (hp : s.process = some p) (hrc : p.returncode = none)
    (ht : s.timedOut = false) (hd : env.stdoutDelta = none) :
    (s.run c env).outcome = .error TIMEOUT_MSG ∧
    (s.run c env).post.timedOut = true ∧
    ∀ (s2 : Session) (p2 : Proc) (c2 : String) (env2 : RunEnv),
      s2.started = true → s2.process = some p2 → p2.returncode = none →
      s2.timedOut = true →
      (s2.run c2 env2).outcome = .error TIMEOUT_MSG ∧ (s2.run c2 env2).post = s2 := by
  refine ⟨by simp [Session.run, hs, hp, hrc, ht, hd],
          by simp [Session.run, hs, hp, hrc, ht, hd], ?_⟩
  intro s2 p2 c2 env2 h1 h2 h3 h4
  constructor <;> simp [Session.run, h1, h2, h3, h4]

theorem run_timeout_terminal_witness :
    ((sLive.run "timeout 10" envTimeout).outcome = .error TIMEOUT_MSG ∧
     (sLive.run "timeout 10" envTimeout).post.timedOut = true ∧
     ∀ (s2 : Session) (p2 : Proc) (c2 : String) (env2 : RunEnv),
       s2.started = true → s2.process = some p2 → p2.returncode = none →
       s2.timedOut = true →
       (s2.run c2 env2).outcome = .error TIMEOUT_MSG ∧ (s2.run c2 env2).post = s2) :=
  run_timeout_terminal sLive pLive "timeout 10" envTimeout rfl rfl rfl rfl rfl

/-- C3: on a started session whose process returncode is non-null, `run`
returns (does not raise) a result whose system note is
"tool must be restarted" and whose error message carries the observed exit
code; it writes nothing to stdin, carries no command output, and leaves the
session unchanged. -/
theorem run_exited_returns_restart_note
    (s : Session) (p : Proc) (rc : Int) (c : String) (env : RunEnv)
    (hs : s.started = true) (hp : s.process = some p) (hrc : p.returncode = some rc) :
    (s.run c env).outcome =
      .ok { error := some ("cmd has exited with returncode " ++ toString rc),
            system := some "tool must be restarted" } ∧
    (s.run c env).stdinWrites = [] ∧
    (s.run c env).post = s := by
  refine ⟨?_, ?_, ?_⟩ <;> simp [Session.run, hs, hp, hrc]

theorem run_exited_returns_restart_note_witness :
    ((sExited.run "echo test" envTimeout).outcome =
       .ok { error := some ("cmd has exited with returncode " ++ toString (1 : Int)),
             system := some "tool must be restarted" } ∧
     (sExited.run "echo test" envTimeout).stdinWrites = [] ∧
     (sExited.run "echo test" envTimeout).post = sExited) :=
  run_exited_returns_restart_note sExited
    { returncode := some 1, stdoutBuf := "", stderrBuf := "" } 1 "echo test" envTimeout
    rfl rfl rfl

/-- C4: after a `run` that returns a result on the successful path, both the
stdout and stderr accumulator buffers are empty, so a subsequent `run` on the
same session computes its stdout and stderr purely from the bytes that arrive
during that subsequent call. -/
theorem run_success_clears_accumulators
    (s : Session) (p : Proc) (c d : String) (env : RunEnv)
    (hs : s.started = true) (hp : s.process = some p) (hrc : p.returncode = none)
    (ht : s.timedOut = false) (hd : env.stdoutDelta = some d) :
    (s.run c env).post.process =
      some { returncode := none, stdoutBuf := "", stderrBuf := "" } ∧
    ∀ (c2 d2 : String) (env2 : RunEnv), env2.stdoutDelta = some d2 →
      ((s.run c env).post.run c2 env2).outcome =
        .ok { output := some (stripTrailingNewline (truncBeforeFirst SENTINEL.data d2)),
              error := some (stripTrailingNewline env2.stderrDelta) } := by
  refine ⟨by simp [Session.run, hs, hp, hrc, ht, hd], ?_⟩
  intro c2 d2 env2 h2
  simp [Session.run, hs, hp, hrc, ht, hd, h2, empty_append_str]

theorem run_success_clears_accumulators_witness :
    ((sLive.run "dir" { stdoutDelta := some "hello\n<<exit>>\n", stderrDelta := "" }).post.process =
       some { returncode := none, stdoutBuf := "", stderrBuf := "" } ∧
     ∀ (c2 d2 : String) (env2 : RunEnv), env2.stdoutDelta = some d2 →
       (((sLive.run "dir" { stdoutDelta := some "hello\n<<exit>>\n", stderrDelta := "" }).post.run
           c2 env2).outcome =
         .ok { output := some (stripTrailingNewline (truncBeforeFirst SENTINEL.data d2)),
               error := some (stripTrailingNewline env2.stderrDelta) })) :=
  run_success_clears_accumulators sLive pLive "dir" "hello\n<<exit>>\n"
    { stdoutDelta := some "hello\n<<exit>>\n", stderrDelta := "" } rfl rfl rfl rfl rfl

/-- C5: calling the tool facade with `restart = true`, whatever the command
argument and whether or not a session exists, stops any existing session,
replaces it with a brand-new started session, returns the system note
"tool has been restarted." with no stdout/stderr, and never executes the
command argument (no stdin write). -/
theorem call_restart_replaces_session
    (t : Tool) (command : Option String) (env : RunEnv)
    (hwf : ∀ s0, t.session = some s0 → s0.started = true ∧ s0.process.isSome = true) :
    (t.call command true env).outcome = .ok { system := some "tool has been restarted." } ∧
    (t.call command true env).post.session =
      some { started := true, timedOut := false, process := some freshProc } ∧
    (t.call command true env).stdinWrites = [] ∧
    (t.call command true env).spawnCount = 1 ∧
    (∀ s0 p0, t.session = some s0 → s0.process = some p0 → p0.returncode = none →
      (t.call command true env).terminateSignal = true) := by
  match hsess : t.session with
  | none =>
    refine ⟨?_, ?_, ?_, ?_, ?_⟩ <;>
      simp [Tool.call, hsess, Session.init, Session.start]
  | some s0 =>
    obtain ⟨hst, hps⟩ := hwf s0 hsess
    obtain ⟨p0, hp0⟩ := Option.isSome_iff_exists.mp hps
    match hrc : p0.returncode with
    | some rc =>
      refine ⟨?_, ?_, ?_, ?_, ?_⟩
      · simp [Tool.call, hsess, Session.stop, hst, hp0, hrc]
      · simp [Tool.call, hsess, Session.stop, hst, hp0, hrc, Session.init, Session.start]
      · simp [Tool.call, hsess, Session.stop, hst, hp0, hrc]
      · simp [Tool.call, hsess, Session.stop, hst, hp0, hrc]
      · intro s1 p1 hs1 hp1 hrc1
        injection hs1 with he
        subst he
        rw [hp0] at hp1
        injection hp1 with he2
        subst he2
        simp [hrc] at hrc1
    | none =>
      refine ⟨?_, ?_, ?_, ?_, ?_⟩ <;>
        simp [Tool.call, hsess, Session.stop, hst, hp0, hrc, Session.init, Session.start]

theorem call_restart_replaces_session_witness :
    (∀ s0, (Tool.mk (some sLive)).session = some s0 →
       s0.started = true ∧ s0.process.isSome = true) ∧
    (((Tool.mk (some sLive)).call (some "echo x") true envTimeout).outcome =
       .ok { system := some "tool has been restarted." } ∧
     ((Tool.mk (some sLive)).call (some "echo x") true envTimeout).post.session =
       some { started := true, timedOut := false, process := some freshProc } ∧
     ((Tool.mk (some sLive)).call (some "echo x") true envTimeout).stdinWrites = [] ∧
     ((Tool.mk (some sLive)).call (some "echo x") true envTimeout).spawnCount = 1 ∧
     (∀ s0 p0, (Tool.mk (some sLive)).session = some s0 → s0.process = some p0 →
       p0.returncode = none →
       ((Tool.mk (some sLive)).call (some "echo x") true envTimeout).terminateSignal = true)) :=
  ⟨fun s0 h => by injection h with h; subst h; exact ⟨rfl, rfl⟩,
   call_restart_replaces_session (Tool.mk (some sLive)) (some "echo x") envTimeout
     (fun s0 h => by injection h with h; subst h; exact ⟨rfl, rfl⟩)⟩

/-- C6: calling the tool facade with no restart and no command fails with the
error "no command provided." and changes nothing: the facade state is
unchanged, and no session is created, started, stopped, or written to. -/
theorem call_without_command_errors (t : Tool) (env : RunEnv) :
    t.call none false env =
      { outcome := .error "no command provided.", post := t,
        stdinWrites := [], spawnCount := 0, terminateSignal := false } := by
  simp [Tool.call]

/-- C7 counterexample: on a session that was never started, `stop` raises a
`ToolError` rather than returning normally as a no-op. -/
theorem stop_before_start_raises :
    Session.init.stop = .raised "Session has not started." ∧
    Session.init.stop ≠ .noop := by decide

/-- C7 (amended): `stop` raises a `ToolError` when the session was never
started; it is a no-op (no signal) when the process has already exited; and
otherwise it sends a non-blocking termination signal without waiting. -/
theorem stop_raises_unstarted_noop_exited_else_terminates
    (s : Session) (p : Proc) (hp : s.process = some p) :
    (s.started = false → s.stop = .raised "Session has not started.") ∧
    (s.started = true → p.returncode.isSome = true → s.stop = .noop) ∧
    (s.started = true → p.returncode = none → s.stop = .terminated) := by
  refine ⟨fun h => by simp [Session.stop, h],
          fun h hrc => by simp [Session.stop, h, hp, hrc],
          fun h hrc => by simp [Session.stop, h, hp, hrc]⟩

theorem stop_raises_unstarted_noop_exited_else_terminates_witness :
    ((sExited.started = false → sExited.stop = .raised "Session has not started.") ∧
     (sExited.started = true →
       (Proc.mk (some 1) "" "").returncode.isSome = true → sExited.stop = .noop) ∧
     (sExited.started = true →
       (Proc.mk (some 1) "" "").returncode = none → sExited.stop = .terminated)) :=
  stop_raises_unstarted_noop_exited_else_terminates sExited (Proc.mk (some 1) "" "") rfl

/-- C8: `start` is idempotent: on an already-started session it spawns no
second process and leaves the session (including its process handle)
unchanged. -/
theorem start_idempotent (s : Session) (hs : s.started = true) :
    s.start = (s, false) := by
  simp [Session.start, hs]

theorem start_idempotent_witness : sLive.start = (sLive, false) :=
  start_idempotent sLive rfl

/-- C9: on the successful path of `run`, the returned stderr is the
accumulated stderr buffer with exactly one trailing newline stripped if
present — the same single-newline stripping applied to stdout. -/
theorem run_success_strips_stderr_trailing_newline
    (s : Session) (p : Proc) (c d : String) (env : RunEnv)
    (hs : s.started = true) (hp : s.process = some p) (hrc : p.returncode = none)
    (ht : s.timedOut = false) (hd : env.stdoutDelta = some d) :
    ∃ r, (s.run c env).outcome = .ok r ∧
      r.error = some (stripTrailingNewline (p.stderrBuf ++ env.stderrDelta)) := by
  refine ⟨{ output := some (stripTrailingNewline (truncBeforeFirst SENTINEL.data (p.stdoutBuf ++ d))),
            error := some (stripTrailingNewline (p.stderrBuf ++ env.stderrDelta)) }, ?_, rfl⟩
  simp [Session.run, hs, hp, hrc, ht, hd]

theorem run_success_strips_stderr_trailing_newline_witness :
    ∃ r, (sLive.run "dir" { stdoutDelta := some "<<exit>>\n", stderrDelta := "oops\n" }).outcome
           = .ok r ∧
      r.error = some (stripTrailingNewline (pLive.stderrBuf ++ "oops\n")) :=
  run_success_strips_stderr_trailing_newline sLive pLive "dir" "<<exit>>\n"
    { stdoutDelta := some "<<exit>>\n", stderrDelta := "oops\n" } rfl rfl rfl rfl rfl

/-- C10: `run` checks the exited condition before the timed-out condition: on
a session that has timed out but whose process has since exited, `run`
returns the "tool must be restarted" result and does not raise the timeout
error. -/
theorem run_checks_exited_before_timeout
    (s : Session) (p : Proc) (rc : Int) (c : String) (env : RunEnv)
    (hs : s.started = true) (hp : s.process = some p) (hrc : p.returncode = some rc)
    (_ht : s.timedOut = true) :
    (s.run c env).outcome =
      .ok { error := some ("cmd has exited with returncode " ++ toString rc),
            system := some "tool must be restarted" } ∧
    (s.run c env).outcome ≠ .error TIMEOUT_MSG := by
  constructor <;> simp [Session.run, hs, hp, hrc]

theorem run_checks_exited_before_timeout_witness :
    ((sExitedTimedOut.run "echo test" envTimeout).outcome =
       .ok { error := some ("cmd has exited with returncode " ++ toString (1 : Int)),
             system := some "tool must be restarted" } ∧
     (sExitedTimedOut.run "echo test" envTimeout).outcome ≠ .error TIMEOUT_MSG) :=
  run_checks_exited_before_timeout sExitedTimedOut
    (Proc.mk (some 1) "" "") 1 "echo test" envTimeout rfl rfl rfl rfl
